import Mathlib

/-!
Shallow embedding of the anti-entropy coordinator of nimbus.io
(src/diyapi_anti_entropy_server/diyapi_anti_entropy_server_main.py).

The Python process is a single-threaded message loop.  Each handler is a
pure function of (state, message) returning outbound messages; calls to the
external audit-result store are modelled as an explicit list of DbAction
values, and environmental inputs (wall clock, fresh uuids, fresh row ids,
the random choice, the ineligible-avatar query answered by the external
store) are explicit parameters.  Times are seconds as Nat.
-/

namespace AntiEntropy

/-- Python dict lookup on an association list (insertion ordered). -/
def alookup {α : Type} (k : String) : List (String × α) → Option α
  | [] => none
  | (k2, v) :: rest => if k2 = k then some v else alookup k rest

/-- Python dict item assignment: replace in place if the key is present,
otherwise append at the end (insertion order). -/
def dictSet {α : Type} (k : String) (v : α) (d : List (String × α)) :
    List (String × α) :=
  if (alookup k d).isSome then
    d.map (fun p => if p.1 = k then (k, v) else p)
  else
    d ++ [(k, v)]

/-- Python dict.pop: remove the entry with the given key. -/
def dictPop {α : Type} (k : String) (d : List (String × α)) :
    List (String × α) :=
  d.filter (fun p => p.1 ≠ k)

/-! Module constants of the source file.  The exchange list comes from the
DIY_NODE_EXCHANGES environment variable and is a parameter everywhere. -/

def errorHash : String := "*** error ***"

def maxRetryCount : Nat := 2

def requestTimeout : Nat := 300

def retryInterval : Nat := 3600

def pollingInterval : Nat := 1800

def avatarPollingInterval : Nat := 86400

/-- Modelled from the spec: the audit-reply variants of the messages module
(messages/anti_entropy_audit_reply.py is not part of the core sources);
the spec names the variants successful, other_error(message) and
audit_error(message). -/
inductive AuditReplyKind : Type
  | successful
  | audit_error
  | other_error
deriving DecidableEq, Repr

/-- Modelled from the spec: an outbound audit-reply payload, sent only in
response to an external audit-request. -/
structure AuditReply : Type where
  request_id : String
  result : AuditReplyKind
  error_message : Option String
deriving DecidableEq, Repr

/-- Modelled from the spec: the routing tag of the audit-reply message type;
its concrete value lives in the excluded messages module and nothing here
depends on it. -/
def auditReplyRoutingTag : String := "anti-entropy-audit-reply"

/-- Modelled from the spec: payload of a consistency-check reply from one
node (messages/database_consistency_check_reply.py is not under the core
sources): node name, an error flag, and a hash token. -/
structure ConsistencyCheckReply : Type where
  request_id : String
  node_name : String
  error : Bool
  hash : String
deriving DecidableEq, Repr

/-- Modelled from the spec: payload of an inbound external audit request
(messages/anti_entropy_audit_request.py is not under the core sources). -/
structure AuditRequestMsg : Type where
  request_id : String
  avatar_id : Nat
  reply_exchange : String
  reply_routing_header : String
deriving DecidableEq, Repr

/-- A call made on the external AuditResultDatabase store, recorded in
order.  The store itself is an excluded external collaborator. -/
inductive DbAction : Type
  | start_audit (avatar_id : Nat) (timestamp : Nat)
  | restart_audit (row_id : Nat) (timestamp : Nat)
  | successful_audit (row_id : Nat) (timestamp : Nat)
  | audit_error (row_id : Nat) (timestamp : Nat)
  | wait_for_retry (row_id : Nat)
  | too_many_retries (row_id : Nat)
deriving DecidableEq, Repr

/-- An outbound message returned by a handler: a broadcast consistency
check to one exchange, an audit reply to a requester, or an avatar-list
request. -/
inductive OutMessage : Type
  | consistencyCheck (exchange : String) (request_id : String)
      (avatar_id : Nat) (timestamp : Nat)
  | auditReply (exchange : String) (routing_key : String) (reply : AuditReply)
  | avatarListRequest
deriving DecidableEq, Repr

/-- The RequestState namedtuple.  The timeout_function field always holds
_timeout_request in the source and is left implicit.  reply_exchange and
reply_routing_header are both set for an externally triggered audit and
both None for an organic one. -/
structure RequestState : Type where
  timestamp : Nat
  timeout : Nat
  avatar_id : Nat
  retry_count : Nat
  replies : List (String × String)
  row_id : Nat
  reply_exchange : Option String
  reply_routing_header : Option String
deriving DecidableEq, Repr

/-- The RetryEntry namedtuple. -/
structure RetryEntry : Type where
  retry_time : Nat
  avatar_id : Nat
  row_id : Nat
  retry_count : Nat
deriving DecidableEq, Repr

/-- Python attribute access on a RetryEntry: the namedtuple declares
exactly the fields retry_time, avatar_id, row_id and retry_count; any
other name raises AttributeError, modelled as none. -/
def RetryEntry.getattr (e : RetryEntry) : String → Option Nat
  | "retry_time" => some e.retry_time
  | "avatar_id" => some e.avatar_id
  | "row_id" => some e.row_id
  | "retry_count" => some e.retry_count
  | _ => none

/-- The heterogeneous state dict of the process, split into its shapes:
the RequestState entries (keyed by request id), the "retry-list" entry,
the "avatar-ids" entry, and the two scheduler deadlines. -/
structure ServerState : Type where
  requests : List (String × RequestState)
  retryList : List RetryEntry
  avatarIds : List Nat
  nextPollInterval : Nat
  nextAvatarPollInterval : Nat
deriving DecidableEq, Repr

/-- _timeout_request: pop the request; with the retry budget exhausted mark
too_many_retries and stop, otherwise append a RetryEntry with the retry
count preserved and mark wait_for_retry. -/
def timeout_request (request_id : String) (st : ServerState) (now : Nat) :
    ServerState × List DbAction :=
  match alookup request_id st.requests with
  | none => (st, [])
  | some request_state =>
    let st1 : ServerState :=
      { st with requests := dictPop request_id st.requests }
    if request_state.retry_count ≥ maxRetryCount then
      (st1, [DbAction.too_many_retries request_state.row_id])
    else
      ({ st1 with retryList := st1.retryList ++
          [{ retry_time := now + retryInterval,
             avatar_id := request_state.avatar_id,
             row_id := request_state.row_id,
             retry_count := request_state.retry_count }] },
       [DbAction.wait_for_retry request_state.row_id])

/-- _start_consistency_check: open or restart the store row, install a
fresh RequestState (organic: no reply target) and broadcast a
DatabaseConsistencyCheck to every exchange.  request_id stands for the
fresh uuid and new_row_id for the row id returned by start_audit. -/
def start_consistency_check (exchanges : List String) (st : ServerState)
    (avatar_id : Nat) (row_id : Option Nat) (retry_count : Nat)
    (request_id : String) (now : Nat) (new_row_id : Nat) :
    ServerState × List DbAction × List OutMessage :=
  let rowdb : Nat × List DbAction :=
    match row_id with
    | none => (new_row_id, [DbAction.start_audit avatar_id now])
    | some r => (r, [DbAction.restart_audit r now])
  let request_state : RequestState :=
    { timestamp := now,
      timeout := now + requestTimeout,
      avatar_id := avatar_id,
      retry_count := retry_count,
      replies := [],
      row_id := rowdb.1,
      reply_exchange := none,
      reply_routing_header := none }
  ({ st with requests := dictSet request_id request_state st.requests },
   rowdb.2,
   exchanges.map (fun ex =>
     OutMessage.consistencyCheck ex request_id avatar_id now))

/-- _choose_avatar_for_consistency_check: subtract the store's ineligible
ids from the avatar cache and start a check on a random eligible avatar.
ineligible is the external store's answer and pick resolves the uniform
random choice. -/
def choose_avatar_for_consistency_check (exchanges : List String)
    (st : ServerState) (ineligible : List Nat) (pick : Nat)
    (request_id : String) (now : Nat) (new_row_id : Nat) :
    ServerState × List DbAction × List OutMessage :=
  let eligible := st.avatarIds.filter (fun a => ¬ a ∈ ineligible)
  if eligible.length = 0 then
    (st, [], [])
  else
    let avatar_id := eligible.getD (pick % eligible.length) 0
    start_consistency_check exchanges st avatar_id none 0 request_id now
      new_row_id

/-- _handle_anti_entropy_audit_request: an external audit always opens a
new store row and is installed with retry_count preset to the maximum and
with the requester's reply target recorded. -/
def handle_anti_entropy_audit_request (exchanges : List String)
    (st : ServerState) (msg : AuditRequestMsg) (now : Nat)
    (new_row_id : Nat) : ServerState × List DbAction × List OutMessage :=
  let request_state : RequestState :=
    { timestamp := now,
      timeout := now + requestTimeout,
      avatar_id := msg.avatar_id,
      retry_count := maxRetryCount,
      replies := [],
      row_id := new_row_id,
      reply_exchange := some msg.reply_exchange,
      reply_routing_header := some msg.reply_routing_header }
  ({ st with requests := dictSet msg.request_id request_state st.requests },
   [DbAction.start_audit msg.avatar_id now],
   exchanges.map (fun ex =>
     OutMessage.consistencyCheck ex msg.request_id msg.avatar_id now))

/-- _handle_database_avatar_list_reply: refresh the avatar cache and, only
when no RequestState entry is in the table, choose a new avatar. -/
def handle_database_avatar_list_reply (exchanges : List String)
    (st : ServerState) (avatarIds : List Nat) (ineligible : List Nat)
    (pick : Nat) (request_id : String) (now : Nat) (new_row_id : Nat) :
    ServerState × List DbAction × List OutMessage :=
  let st1 : ServerState := { st with avatarIds := avatarIds }
  if st1.requests.isEmpty then
    choose_avatar_for_consistency_check exchanges st1 ineligible pick
      request_id now new_row_id
  else
    (st1, [], [])

/-- Lines 350-449 of the reply handler: the request has been popped, all
replies are in; compare the distinct hash values and decide.  In the
mismatch branch the source calls database.audit_error twice for an
external audit, so two actions are recorded. -/
def comparator (st : ServerState) (request_id : String)
    (request_state : RequestState) (reply_exchange : Option String)
    (reply_routing_key : Option String) (now : Nat) :
    ServerState × List DbAction × List OutMessage :=
  let hash_list := (request_state.replies.map Prod.snd).dedup
  if hash_list.length = 1 ∧ hash_list.getD 0 "" ≠ errorHash then
    match reply_exchange, reply_routing_key with
    | some ex, some rk =>
      (st, [DbAction.successful_audit request_state.row_id now],
       [OutMessage.auditReply ex rk
         { request_id := request_id,
           result := AuditReplyKind.successful,
           error_message := none }])
    | _, _ =>
      (st, [DbAction.successful_audit request_state.row_id now], [])
  else if hash_list.length = 2 ∧ errorHash ∈ hash_list then
    let error_count :=
      (request_state.replies.filter (fun p => p.2 = errorHash)).length
    match reply_exchange, reply_routing_key with
    | some ex, some rk =>
      (st, [DbAction.audit_error request_state.row_id now],
       [OutMessage.auditReply ex rk
         { request_id := request_id,
           result := AuditReplyKind.other_error,
           error_message :=
             some ("There were " ++ toString error_count ++
               " error hashes") }])
    | _, _ =>
      if request_state.retry_count ≥ maxRetryCount then
        (st, [DbAction.audit_error request_state.row_id now], [])
      else
        ({ st with retryList := st.retryList ++
            [{ retry_time := now + retryInterval,
               avatar_id := request_state.avatar_id,
               row_id := request_state.row_id,
               retry_count := request_state.retry_count }] },
         [DbAction.wait_for_retry request_state.row_id], [])
  else
    match reply_exchange, reply_routing_key with
    | some ex, some rk =>
      (st, [DbAction.audit_error request_state.row_id now,
            DbAction.audit_error request_state.row_id now],
       [OutMessage.auditReply ex rk
         { request_id := request_id,
           result := AuditReplyKind.audit_error,
           error_message :=
             some ("avatar " ++ toString request_state.avatar_id ++
               " hash mismatch") }])
    | _, _ =>
      if request_state.retry_count ≥ maxRetryCount then
        (st, [DbAction.audit_error request_state.row_id now], [])
      else
        ({ st with retryList := st.retryList ++
            [{ retry_time := now + retryInterval,
               avatar_id := request_state.avatar_id,
               row_id := request_state.row_id,
               retry_count := request_state.retry_count }] },
         [DbAction.wait_for_retry request_state.row_id], [])

/-- _handle_database_consistency_check_reply: correlate the reply, reject
duplicates, record the hash (or the error sentinel), and either wait for
more replies or pop the request and run the comparator.  The source
asserts reply_exchange is not None whenever reply_routing_header is set;
every creation path sets both or neither, so the assertion never fires. -/
def handle_database_consistency_check_reply (exchanges : List String)
    (st : ServerState) (msg : ConsistencyCheckReply) (now : Nat) :
    ServerState × List DbAction × List OutMessage :=
  match alookup msg.request_id st.requests with
  | none => (st, [], [])
  | some rs =>
    let hash_value := if msg.error then errorHash else msg.hash
    let reply_routing_key : Option String :=
      match rs.reply_routing_header with
      | some hdr => some (hdr ++ "." ++ auditReplyRoutingTag)
      | none => none
    let reply_exchange : Option String :=
      match rs.reply_routing_header with
      | some _ => rs.reply_exchange
      | none => none
    match alookup msg.node_name rs.replies with
    | some _ =>
      let em := "duplicate reply from " ++ msg.node_name ++ " " ++
        toString rs.avatar_id ++ " " ++ msg.request_id
      match reply_exchange, reply_routing_key with
      | some ex, some rk =>
        (st, [],
         [OutMessage.auditReply ex rk
           { request_id := msg.request_id,
             result := AuditReplyKind.other_error,
             error_message := some em }])
      | _, _ => (st, [], [])
    | none =>
      let newReplies := dictSet msg.node_name hash_value rs.replies
      let rs2 : RequestState := { rs with replies := newReplies }
      if newReplies.length < exchanges.length then
        ({ st with requests := dictSet msg.request_id rs2 st.requests },
         [], [])
      else
        let stPopped : ServerState :=
          { st with requests := dictPop msg.request_id st.requests }
        comparator stPopped msg.request_id rs2
          reply_exchange reply_routing_key now

/-- The retry sweep at the top of _check_time.  The source reads
retry_entry.retry_timestamp, an attribute the RetryEntry namedtuple does
not declare (its field is retry_time), so the first entry raises
AttributeError; the intended due branch below is carried over faithfully
but is unreachable.  The source also discards the outbound messages that
_start_consistency_check returns here. -/
def retrySweep (exchanges : List String) (freshIds : Nat → String)
    (now : Nat) :
    List RetryEntry → Nat → ServerState →
    Except String (ServerState × List DbAction × List RetryEntry)
  | [], _, st => Except.ok (st, [], [])
  | e :: rest, i, st =>
    match RetryEntry.getattr e "retry_timestamp" with
    | none =>
      Except.error
        "AttributeError: RetryEntry instance has no attribute retry_timestamp"
    | some t =>
      if now ≥ t then
        match start_consistency_check exchanges st e.avatar_id
            (some e.row_id) (e.retry_count + 1) (freshIds i) now 0 with
        | (st2, db, _discarded) =>
          match retrySweep exchanges freshIds now rest (i + 1) st2 with
          | Except.error m => Except.error m
          | Except.ok (st3, db2, keep) => Except.ok (st3, db ++ db2, keep)
      else
        match retrySweep exchanges freshIds now rest (i + 1) st with
        | Except.error m => Except.error m
        | Except.ok (st3, db2, keep) => Except.ok (st3, db2, e :: keep)

/-- The timeout sweep of _check_time: the request ids past their deadline
are snapshotted first (Python 2 filter builds a list), then
_timeout_request runs for each. -/
def timeoutSweep (now : Nat) (ids : List String) (st : ServerState) :
    ServerState × List DbAction :=
  ids.foldl
    (fun acc rid =>
      let r := timeout_request rid acc.1 now
      (r.1, acc.2 ++ r.2))
    (st, [])

/-- Environmental inputs of one _check_time tick. -/
structure CheckTimeOracles : Type where
  freshIds : Nat → String
  ineligible : List Nat
  pick : Nat
  request_id : String
  new_row_id : Nat

/-- _check_time: retry sweep (which raises AttributeError on any
non-empty retry list), timeout sweep, then the avatar-list refresh or the
organic audit-selection poll.  The poll path starts a new organic audit
without scanning the table for a live RequestState. -/
def check_time (exchanges : List String) (st : ServerState) (now : Nat)
    (orc : CheckTimeOracles) :
    Except String (ServerState × List DbAction × List OutMessage) :=
  match retrySweep exchanges orc.freshIds now st.retryList 0 st with
  | Except.error m => Except.error m
  | Except.ok (st1, db1, keep) =>
    let st2 : ServerState := { st1 with retryList := keep }
    let dueIds :=
      (st2.requests.filter (fun p => now > p.2.timeout)).map Prod.fst
    let r2 := timeoutSweep now dueIds st2
    let st3 := r2.1
    let db2 := r2.2
    if now ≥ st3.nextAvatarPollInterval then
      Except.ok
        ({ st3 with nextAvatarPollInterval := now + avatarPollingInterval },
         db1 ++ db2, [OutMessage.avatarListRequest])
    else if now ≥ st3.nextPollInterval then
      let st4 : ServerState :=
        { st3 with nextPollInterval := now + pollingInterval }
      let r3 := choose_avatar_for_consistency_check exchanges st4
        orc.ineligible orc.pick orc.request_id now orc.new_row_id
      Except.ok (r3.1, db1 ++ db2 ++ r3.2.1, r3.2.2)
    else
      Except.ok (st3, db1 ++ db2, [])

/-! Theorems.  The cFixture definitions below are concrete states and
messages used by witnesses and counterexamples. -/

lemma getattr_retry_timestamp (e : RetryEntry) :
    e.getattr "retry_timestamp" = none := by
  rfl

/-- A concrete organic request with one retry left. -/
def c4Request : RequestState :=
  { timestamp := 0, timeout := 300, avatar_id := 7, retry_count := 1,
    replies := [], row_id := 11, reply_exchange := none,
    reply_routing_header := none }

def c4State : ServerState :=
  { requests := [("r1", c4Request)], retryList := [], avatarIds := [],
    nextPollInterval := 0, nextAvatarPollInterval := 0 }

/-- The RetryEntry the timeout of c4Request at time 301 must enqueue. -/
def c4Entry : RetryEntry :=
  { retry_time := 3901, avatar_id := 7, row_id := 11, retry_count := 1 }

def c5Entry : RetryEntry :=
  { retry_time := 0, avatar_id := 1, row_id := 1, retry_count := 0 }

def c5State : ServerState :=
  { requests := [], retryList := [c5Entry], avatarIds := [],
    nextPollInterval := 1000000, nextAvatarPollInterval := 1000000 }

def c5Oracles : CheckTimeOracles :=
  { freshIds := fun _ => "f", ineligible := [], pick := 0,
    request_id := "r", new_row_id := 1 }

/-- C4: for every outstanding AuditRequest whose timeout fires, the
timeout handler pops the request from the table; with the retry budget
exhausted it marks the store row too_many_retries and requeues nothing,
otherwise it appends one RetryEntry carrying the same avatar id, row id
and unchanged retry count and marks the row wait_for_retry. -/
theorem timeout_retry_policy (st : ServerState) (request_id : String)
    (now : Nat) (rs : RequestState)
    (hreq : alookup request_id st.requests = some rs) :
    (rs.retry_count ≥ maxRetryCount →
      timeout_request request_id st now =
        ({ st with requests := dictPop request_id st.requests },
         [DbAction.too_many_retries rs.row_id])) ∧
    (rs.retry_count < maxRetryCount →
      timeout_request request_id st now =
        ({ st with
            requests := dictPop request_id st.requests,
            retryList := st.retryList ++
              [{ retry_time := now + retryInterval,
                 avatar_id := rs.avatar_id,
                 row_id := rs.row_id,
                 retry_count := rs.retry_count }] },
         [DbAction.wait_for_retry rs.row_id])) := by
  refine ⟨fun hge => ?_, fun hlt => ?_⟩
  · simp only [timeout_request, hreq, if_pos hge]
  · simp only [timeout_request, hreq]
    rw [if_neg (Nat.not_le.mpr hlt)]

/-- Witness for C4 at a concrete organic request with retry count 1. -/
theorem timeout_retry_policy_witness :
    alookup "r1" c4State.requests = some c4Request ∧
    c4Request.retry_count < maxRetryCount ∧
    timeout_request "r1" c4State 301 =
      ({ requests := [], retryList := [c4Entry], avatarIds := [],
         nextPollInterval := 0, nextAvatarPollInterval := 0 },
       [DbAction.wait_for_retry 11]) := by
  refine ⟨by decide, by decide, ?_⟩
  have h := (timeout_retry_policy c4State "r1" 301 c4Request
    (by decide)).2 (by decide)
  rw [h]
  decide

/-- C5 (code bug): the scheduler's retry sweep reads the attribute
retry_timestamp, which the RetryEntry namedtuple does not declare (its
field is retry_time), so any tick with a non-empty retry list raises
AttributeError instead of restarting the due audits with retry count plus
one. -/
theorem check_time_retry_sweep_attribute_error (exchanges : List String)
    (st : ServerState) (now : Nat) (orc : CheckTimeOracles)
    (e : RetryEntry) (rest : List RetryEntry)
    (hret : st.retryList = e :: rest) :
    check_time exchanges st now orc =
      Except.error
        "AttributeError: RetryEntry instance has no attribute retry_timestamp"
      := by
  unfold check_time
  rw [hret]
  unfold retrySweep
  rw [getattr_retry_timestamp]

/-- Witness for C5 at the failing input: one due RetryEntry in the list. -/
theorem check_time_retry_sweep_attribute_error_witness :
    c5State.retryList = c5Entry :: [] ∧
    check_time ["ex1"] c5State 10000 c5Oracles =
      Except.error
        "AttributeError: RetryEntry instance has no attribute retry_timestamp"
      :=
  ⟨rfl,
   check_time_retry_sweep_attribute_error ["ex1"] c5State 10000 c5Oracles
     c5Entry [] rfl⟩

/-- The reply exchange the handler computes from a RequestState: present
only when the audit carries a reply routing header. -/
def replyExchangeOf (rs : RequestState) : Option String :=
  match rs.reply_routing_header with
  | some _ => rs.reply_exchange
  | none => none

/-- The reply routing key the handler computes from a RequestState. -/
def replyRoutingKeyOf (rs : RequestState) : Option String :=
  match rs.reply_routing_header with
  | some hdr => some (hdr ++ "." ++ auditReplyRoutingTag)
  | none => none

/-- The hash recorded for a reply: the error sentinel on a reported
failure, the node's hash otherwise. -/
def hashValue (msg : ConsistencyCheckReply) : String :=
  if msg.error then errorHash else msg.hash

/-- The request state after the arriving reply has been recorded. -/
def completedRequest (msg : ConsistencyCheckReply) (rs : RequestState) :
    RequestState :=
  { rs with replies := dictSet msg.node_name (hashValue msg) rs.replies }

lemma dictSet_fresh {α : Type} (k : String) (v : α) (d : List (String × α))
    (h : alookup k d = none) : dictSet k v d = d ++ [(k, v)] := by
  simp [dictSet, h]

lemma alookup_dictPop {α : Type} (k : String) (d : List (String × α)) :
    alookup k (dictPop k d) = none := by
  induction d with
  | nil => rfl
  | cons p rest ih =>
    by_cases hp : p.1 = k
    · simpa [dictPop, hp] using ih
    · simpa [dictPop, alookup, hp] using ih

lemma alookup_append_right {α : Type} (k : String) (v : α) :
    ∀ d : List (String × α), alookup k d = none →
      alookup k (d ++ [(k, v)]) = some v
  | [], _ => by simp [alookup]
  | (k2, v2) :: rest, h => by
    by_cases hp : k2 = k
    · simp [alookup, hp] at h
    · have h2 : alookup k rest = none := by simpa [alookup, hp] using h
      simpa [alookup, hp] using alookup_append_right k v rest h2

lemma alookup_mapSet {α : Type} (k : String) (v : α) :
    ∀ d : List (String × α), (alookup k d).isSome →
      alookup k (d.map (fun p => if p.1 = k then (k, v) else p)) = some v
  | [], h => by simp [alookup] at h
  | (k2, v2) :: rest, h => by
    simp only [List.map_cons]
    by_cases hp : k2 = k
    · rw [if_pos (show (k2, v2).1 = k from hp)]
      simp [alookup]
    · rw [if_neg (show ¬ (k2, v2).1 = k from hp)]
      have h2 : (alookup k rest).isSome := by simpa [alookup, hp] using h
      simpa [alookup, hp] using alookup_mapSet k v rest h2

lemma alookup_dictSet {α : Type} (k : String) (v : α)
    (d : List (String × α)) : alookup k (dictSet k v d) = some v := by
  by_cases hs : (alookup k d).isSome
  · rw [dictSet, if_pos hs]
    exact alookup_mapSet k v d hs
  · rw [dictSet, if_neg hs]
    exact alookup_append_right k v d (Option.not_isSome_iff_eq_none.mp hs)

/-- Reduction of the reply handler in the completing case: the request is
known, the reply is not a duplicate, and it fills the last slot. -/
lemma handler_complete_eq (exchanges : List String) (st : ServerState)
    (msg : ConsistencyCheckReply) (now : Nat) (rs : RequestState)
    (hreq : alookup msg.request_id st.requests = some rs)
    (hdup : alookup msg.node_name rs.replies = none)
    (hfull : ¬ (completedRequest msg rs).replies.length < exchanges.length) :
    handle_database_consistency_check_reply exchanges st msg now =
      comparator
        ({ st with requests := dictPop msg.request_id st.requests })
        msg.request_id (completedRequest msg rs)
        (replyExchangeOf rs) (replyRoutingKeyOf rs) now := by
  simp only [completedRequest, hashValue] at hfull
  simp only [handle_database_consistency_check_reply, hreq, hdup]
  rw [if_neg hfull]
  rfl

/-- Reduction of the reply handler in the waiting case: not a duplicate
and slots remain, so the reply is recorded and nothing else happens. -/
lemma handler_incomplete_eq (exchanges : List String) (st : ServerState)
    (msg : ConsistencyCheckReply) (now : Nat) (rs : RequestState)
    (hreq : alookup msg.request_id st.requests = some rs)
    (hdup : alookup msg.node_name rs.replies = none)
    (hlt : (completedRequest msg rs).replies.length < exchanges.length) :
    handle_database_consistency_check_reply exchanges st msg now =
      ({ st with requests :=
          dictSet msg.request_id (completedRequest msg rs) st.requests },
       [], []) := by
  simp only [completedRequest, hashValue] at hlt
  simp only [handle_database_consistency_check_reply, hreq, hdup]
  rw [if_pos hlt]
  rfl

/-- The comparator on a single non-error distinct hash value. -/
lemma comparator_success (st : ServerState) (request_id : String)
    (rs : RequestState) (re rk : Option String) (now : Nat) (h : String)
    (hded : (rs.replies.map Prod.snd).dedup = [h]) (hne : h ≠ errorHash) :
    comparator st request_id rs re rk now =
      match re, rk with
      | some ex, some k =>
        (st, [DbAction.successful_audit rs.row_id now],
         [OutMessage.auditReply ex k
           { request_id := request_id,
             result := AuditReplyKind.successful,
             error_message := none }])
      | _, _ =>
        (st, [DbAction.successful_audit rs.row_id now], []) := by
  simp only [comparator, hded]
  rw [if_pos ⟨rfl, by simpa using hne⟩]

/-- The comparator on exactly two distinct values, one of them the error
sentinel. -/
lemma comparator_error_consistent (st : ServerState) (request_id : String)
    (rs : RequestState) (re rk : Option String) (now : Nat)
    (hlen : ((rs.replies.map Prod.snd).dedup).length = 2)
    (herr : errorHash ∈ (rs.replies.map Prod.snd).dedup) :
    comparator st request_id rs re rk now =
      match re, rk with
      | some ex, some k =>
        (st, [DbAction.audit_error rs.row_id now],
         [OutMessage.auditReply ex k
           { request_id := request_id,
             result := AuditReplyKind.other_error,
             error_message := some ("There were " ++
               toString ((rs.replies.filter
                 (fun p => p.2 = errorHash)).length) ++
               " error hashes") }])
      | _, _ =>
        if rs.retry_count ≥ maxRetryCount then
          (st, [DbAction.audit_error rs.row_id now], [])
        else
          ({ st with retryList := st.retryList ++
              [{ retry_time := now + retryInterval,
                 avatar_id := rs.avatar_id,
                 row_id := rs.row_id,
                 retry_count := rs.retry_count }] },
           [DbAction.wait_for_retry rs.row_id], []) := by
  simp only [comparator]
  rw [if_neg (by rintro ⟨h1, _⟩; omega), if_pos ⟨hlen, herr⟩]

/-- The comparator fall-through: some form of mismatch. -/
lemma comparator_mismatch (st : ServerState) (request_id : String)
    (rs : RequestState) (re rk : Option String) (now : Nat)
    (hn1 : ¬ (((rs.replies.map Prod.snd).dedup).length = 1 ∧
      ((rs.replies.map Prod.snd).dedup).getD 0 "" ≠ errorHash))
    (hn2 : ¬ (((rs.replies.map Prod.snd).dedup).length = 2 ∧
      errorHash ∈ (rs.replies.map Prod.snd).dedup)) :
    comparator st request_id rs re rk now =
      match re, rk with
      | some ex, some k =>
        (st, [DbAction.audit_error rs.row_id now,
              DbAction.audit_error rs.row_id now],
         [OutMessage.auditReply ex k
           { request_id := request_id,
             result := AuditReplyKind.audit_error,
             error_message := some ("avatar " ++
               toString rs.avatar_id ++ " hash mismatch") }])
      | _, _ =>
        if rs.retry_count ≥ maxRetryCount then
          (st, [DbAction.audit_error rs.row_id now], [])
        else
          ({ st with retryList := st.retryList ++
              [{ retry_time := now + retryInterval,
                 avatar_id := rs.avatar_id,
                 row_id := rs.row_id,
                 retry_count := rs.retry_count }] },
           [DbAction.wait_for_retry rs.row_id], []) := by
  simp only [comparator]
  rw [if_neg hn1, if_neg hn2]

/-- A concrete organic audit waiting for one more of two replies. -/
def c1Request : RequestState :=
  { timestamp := 0, timeout := 300, avatar_id := 7, retry_count := 0,
    replies := [("n1", "abc")], row_id := 11, reply_exchange := none,
    reply_routing_header := none }

def c1State : ServerState :=
  { requests := [("r1", c1Request)], retryList := [], avatarIds := [],
    nextPollInterval := 0, nextAvatarPollInterval := 0 }

def c1Msg : ConsistencyCheckReply :=
  { request_id := "r1", node_name := "n2", error := false, hash := "abc" }

/-- C1: when the completing reply leaves exactly one distinct value and it
is not the error sentinel, the audit resolves to SUCCESS exactly once:
the request leaves the table, successful_audit is the only store call,
the retry list is untouched, and one successful audit-reply goes out
exactly when the audit was externally triggered. -/
theorem success_branch_resolves_once (exchanges : List String)
    (st : ServerState) (msg : ConsistencyCheckReply) (now : Nat)
    (rs : RequestState) (h : String)
    (hreq : alookup msg.request_id st.requests = some rs)
    (hdup : alookup msg.node_name rs.replies = none)
    (hfull : ¬ (completedRequest msg rs).replies.length < exchanges.length)
    (hded : ((completedRequest msg rs).replies.map Prod.snd).dedup = [h])
    (hne : h ≠ errorHash) :
    (rs.reply_routing_header = none →
      handle_database_consistency_check_reply exchanges st msg now =
        ({ st with requests := dictPop msg.request_id st.requests },
         [DbAction.successful_audit rs.row_id now], [])) ∧
    (∀ hdr exch, rs.reply_routing_header = some hdr →
      rs.reply_exchange = some exch →
      handle_database_consistency_check_reply exchanges st msg now =
        ({ st with requests := dictPop msg.request_id st.requests },
         [DbAction.successful_audit rs.row_id now],
         [OutMessage.auditReply exch (hdr ++ "." ++ auditReplyRoutingTag)
           { request_id := msg.request_id,
             result := AuditReplyKind.successful,
             error_message := none }])) := by
  have hc := handler_complete_eq exchanges st msg now rs hreq hdup hfull
  have hcs := comparator_success
    ({ st with requests := dictPop msg.request_id st.requests })
    msg.request_id (completedRequest msg rs)
    (replyExchangeOf rs) (replyRoutingKeyOf rs) now h hded hne
  refine ⟨fun hnone => ?_, fun hdr exch hh he => ?_⟩
  · rw [hc, hcs]
    simp [replyExchangeOf, replyRoutingKeyOf, hnone, completedRequest]
  · rw [hc, hcs]
    simp [replyExchangeOf, replyRoutingKeyOf, hh, he, completedRequest]

/-- Witness for C1: two nodes, both report the hash abc. -/
theorem success_branch_resolves_once_witness :
    alookup "r1" c1State.requests = some c1Request ∧
    handle_database_consistency_check_reply ["ex1", "ex2"] c1State c1Msg
      100 =
      ({ c1State with requests := [] },
       [DbAction.successful_audit 11 100], []) := by
  refine ⟨by decide, ?_⟩
  have h := (success_branch_resolves_once ["ex1", "ex2"] c1State c1Msg 100
    c1Request "abc" (by decide) (by decide) (by decide) (by decide)
    (by decide)).1 rfl
  rw [h]
  decide

/-- The RetryEntry the comparator or the timeout handler enqueues for a
request at a given time: retry count preserved. -/
def retryEntryOf (rs : RequestState) (now : Nat) : RetryEntry :=
  { retry_time := now + retryInterval, avatar_id := rs.avatar_id,
    row_id := rs.row_id, retry_count := rs.retry_count }

/-- A concrete organic audit (retry budget open) awaiting n2 of two. -/
def c3Request : RequestState :=
  { timestamp := 0, timeout := 300, avatar_id := 7, retry_count := 0,
    replies := [("n1", "abc")], row_id := 11, reply_exchange := none,
    reply_routing_header := none }

def c3State : ServerState :=
  { requests := [("r1", c3Request)], retryList := [], avatarIds := [],
    nextPollInterval := 0, nextAvatarPollInterval := 0 }

def c3Msg : ConsistencyCheckReply :=
  { request_id := "r1", node_name := "n2", error := true, hash := "zzz" }

/-- C3: when the distinct reply values are exactly one real hash plus the
error sentinel, an externally triggered audit gets exactly one immediate
other_error reply and no retry; an organic one is retried (RetryEntry
enqueued, row marked wait_for_retry) unless the retry budget is
exhausted, in which case the row is marked audit_error. -/
theorem error_consistent_branch_behavior (exchanges : List String)
    (st : ServerState) (msg : ConsistencyCheckReply) (now : Nat)
    (rs : RequestState)
    (hreq : alookup msg.request_id st.requests = some rs)
    (hdup : alookup msg.node_name rs.replies = none)
    (hfull : ¬ (completedRequest msg rs).replies.length < exchanges.length)
    (hlen : (((completedRequest msg rs).replies.map Prod.snd).dedup).length
      = 2)
    (herr : errorHash ∈ ((completedRequest msg rs).replies.map
      Prod.snd).dedup) :
    (∀ hdr exch, rs.reply_routing_header = some hdr →
      rs.reply_exchange = some exch →
      handle_database_consistency_check_reply exchanges st msg now =
        ({ st with requests := dictPop msg.request_id st.requests },
         [DbAction.audit_error rs.row_id now],
         [OutMessage.auditReply exch (hdr ++ "." ++ auditReplyRoutingTag)
           { request_id := msg.request_id,
             result := AuditReplyKind.other_error,
             error_message := some ("There were " ++
               toString (((completedRequest msg rs).replies.filter
                 (fun p => p.2 = errorHash)).length) ++
               " error hashes") }])) ∧
    (rs.reply_routing_header = none → rs.retry_count ≥ maxRetryCount →
      handle_database_consistency_check_reply exchanges st msg now =
        ({ st with requests := dictPop msg.request_id st.requests },
         [DbAction.audit_error rs.row_id now], [])) ∧
    (rs.reply_routing_header = none → rs.retry_count < maxRetryCount →
      handle_database_consistency_check_reply exchanges st msg now =
        ({ st with
            requests := dictPop msg.request_id st.requests,
            retryList := st.retryList ++ [retryEntryOf rs now] },
         [DbAction.wait_for_retry rs.row_id], [])) := by
  have hc := handler_complete_eq exchanges st msg now rs hreq hdup hfull
  have hcc := comparator_error_consistent
    ({ st with requests := dictPop msg.request_id st.requests })
    msg.request_id (completedRequest msg rs)
    (replyExchangeOf rs) (replyRoutingKeyOf rs) now hlen herr
  refine ⟨fun hdr exch hh he => ?_, fun hnone hge => ?_,
    fun hnone hlt => ?_⟩
  · rw [hc, hcc]
    simp [replyExchangeOf, replyRoutingKeyOf, hh, he, completedRequest]
  · rw [hc, hcc]
    have hge2 : (completedRequest msg rs).retry_count ≥ maxRetryCount := hge
    simp [replyExchangeOf, replyRoutingKeyOf, hnone, if_pos hge2,
      completedRequest]
    exact hge
  · rw [hc, hcc]
    have hlt2 : ¬ (completedRequest msg rs).retry_count ≥ maxRetryCount :=
      Nat.not_le.mpr hlt
    simp [replyExchangeOf, replyRoutingKeyOf, hnone, if_neg hlt2,
      completedRequest, retryEntryOf]
    exact hlt

/-- Witness for C3, the spec's Scenario B: n1 = abc, n2 errors, organic,
retry count 0 of 2: RetryEntry scheduled and row marked wait_for_retry. -/
theorem error_consistent_branch_behavior_witness :
    alookup "r1" c3State.requests = some c3Request ∧
    handle_database_consistency_check_reply ["ex1", "ex2"] c3State c3Msg
      100 =
      ({ c3State with
          requests := [],
          retryList := [retryEntryOf c3Request 100] },
       [DbAction.wait_for_retry 11], []) := by
  refine ⟨by decide, ?_⟩
  have h := (error_consistent_branch_behavior ["ex1", "ex2"] c3State c3Msg
    100 c3Request (by decide) (by decide) (by decide) (by decide)
    (by decide)).2.2 rfl (by decide)
  rw [h]
  decide

/-- A concrete externally triggered audit awaiting n2 of two. -/
def c2Request : RequestState :=
  { timestamp := 0, timeout := 300, avatar_id := 7, retry_count := 2,
    replies := [("n1", "abc")], row_id := 11,
    reply_exchange := some "cx", reply_routing_header := some "hdr" }

def c2State : ServerState :=
  { requests := [("r1", c2Request)], retryList := [], avatarIds := [],
    nextPollInterval := 0, nextAvatarPollInterval := 0 }

def c2Msg : ConsistencyCheckReply :=
  { request_id := "r1", node_name := "n2", error := false, hash := "xyz" }

/-- C2: with two or more distinct non-error values among the replies the
outcome is MISMATCH: an externally triggered audit gets exactly one
audit_error reply and no retry (the source marks the store row
audit_error twice); an organic audit enqueues a RetryEntry with the retry
count preserved and is marked wait_for_retry, unless the budget is
exhausted, in which case the row is marked audit_error and nothing is
requeued. -/
theorem mismatch_branch_behavior (exchanges : List String)
    (st : ServerState) (msg : ConsistencyCheckReply) (now : Nat)
    (rs : RequestState) (a b : String)
    (hreq : alookup msg.request_id st.requests = some rs)
    (hdup : alookup msg.node_name rs.replies = none)
    (hfull : ¬ (completedRequest msg rs).replies.length < exchanges.length)
    (ha : a ∈ ((completedRequest msg rs).replies.map Prod.snd).dedup)
    (hb : b ∈ ((completedRequest msg rs).replies.map Prod.snd).dedup)
    (hab : a ≠ b) (hae : a ≠ errorHash) (hbe : b ≠ errorHash) :
    (∀ hdr exch, rs.reply_routing_header = some hdr →
      rs.reply_exchange = some exch →
      handle_database_consistency_check_reply exchanges st msg now =
        ({ st with requests := dictPop msg.request_id st.requests },
         [DbAction.audit_error rs.row_id now,
          DbAction.audit_error rs.row_id now],
         [OutMessage.auditReply exch (hdr ++ "." ++ auditReplyRoutingTag)
           { request_id := msg.request_id,
             result := AuditReplyKind.audit_error,
             error_message := some ("avatar " ++ toString rs.avatar_id ++
               " hash mismatch") }])) ∧
    (rs.reply_routing_header = none → rs.retry_count ≥ maxRetryCount →
      handle_database_consistency_check_reply exchanges st msg now =
        ({ st with requests := dictPop msg.request_id st.requests },
         [DbAction.audit_error rs.row_id now], [])) ∧
    (rs.reply_routing_header = none → rs.retry_count < maxRetryCount →
      handle_database_consistency_check_reply exchanges st msg now =
        ({ st with
            requests := dictPop msg.request_id st.requests,
            retryList := st.retryList ++ [retryEntryOf rs now] },
         [DbAction.wait_for_retry rs.row_id], [])) := by
  have hn1 : ¬ ((((completedRequest msg rs).replies.map
      Prod.snd).dedup).length = 1 ∧
      (((completedRequest msg rs).replies.map Prod.snd).dedup).getD 0 ""
        ≠ errorHash) := by
    rintro ⟨h1, -⟩
    obtain ⟨x, hx⟩ := List.length_eq_one.mp h1
    rw [hx] at ha hb
    simp only [List.mem_singleton] at ha hb
    exact hab (ha.trans hb.symm)
  have hn2 : ¬ ((((completedRequest msg rs).replies.map
      Prod.snd).dedup).length = 2 ∧
      errorHash ∈ ((completedRequest msg rs).replies.map Prod.snd).dedup)
      := by
    rintro ⟨h2, herr⟩
    obtain ⟨p, q, hpq⟩ := List.length_eq_two.mp h2
    rw [hpq] at ha hb herr
    simp only [List.mem_cons, List.mem_singleton, List.not_mem_nil,
      or_false] at ha hb herr
    rcases ha with ha | ha <;> rcases hb with hb | hb <;>
      rcases herr with herr | herr <;> simp_all
  have hc := handler_complete_eq exchanges st msg now rs hreq hdup hfull
  have hcm := comparator_mismatch
    ({ st with requests := dictPop msg.request_id st.requests })
    msg.request_id (completedRequest msg rs)
    (replyExchangeOf rs) (replyRoutingKeyOf rs) now hn1 hn2
  refine ⟨fun hdr exch hh he => ?_, fun hnone hge => ?_,
    fun hnone hlt => ?_⟩
  · rw [hc, hcm]
    simp [replyExchangeOf, replyRoutingKeyOf, hh, he, completedRequest]
  · rw [hc, hcm]
    have hge2 : (completedRequest msg rs).retry_count ≥ maxRetryCount := hge
    simp [replyExchangeOf, replyRoutingKeyOf, hnone, if_pos hge2,
      completedRequest]
    exact hge
  · rw [hc, hcm]
    have hlt2 : ¬ (completedRequest msg rs).retry_count ≥ maxRetryCount :=
      Nat.not_le.mpr hlt
    simp [replyExchangeOf, replyRoutingKeyOf, hnone, if_neg hlt2,
      completedRequest, retryEntryOf]
    exact hlt

/-- Witness for C2, the spec's Scenario C: abc vs xyz, external trigger:
one audit_error reply, retry list untouched. -/
theorem mismatch_branch_behavior_witness :
    alookup "r1" c2State.requests = some c2Request ∧
    handle_database_consistency_check_reply ["ex1", "ex2"] c2State c2Msg
      100 =
      ({ c2State with requests := [] },
       [DbAction.audit_error 11 100, DbAction.audit_error 11 100],
       [OutMessage.auditReply "cx" ("hdr" ++ "." ++ auditReplyRoutingTag)
         { request_id := "r1",
           result := AuditReplyKind.audit_error,
           error_message := some "avatar 7 hash mismatch" }]) := by
  refine ⟨by decide, ?_⟩
  have h := (mismatch_branch_behavior ["ex1", "ex2"] c2State c2Msg 100
    c2Request "abc" "xyz" (by decide) (by decide) (by decide) (by decide)
    (by decide) (by decide) (by decide) (by decide)).1 "hdr" "cx" rfl rfl
  rw [h]
  decide

/-- A concrete externally triggered audit whose nodes all error. -/
def c10Request : RequestState :=
  { timestamp := 0, timeout := 300, avatar_id := 7, retry_count := 2,
    replies := [("n1", "*** error ***")], row_id := 11,
    reply_exchange := some "cx", reply_routing_header := some "hdr" }

def c10State : ServerState :=
  { requests := [("r1", c10Request)], retryList := [], avatarIds := [],
    nextPollInterval := 0, nextAvatarPollInterval := 0 }

def c10Msg : ConsistencyCheckReply :=
  { request_id := "r1", node_name := "n2", error := true, hash := "zzz" }

/-- C10: when every reply is the error sentinel the comparator matches
neither the SUCCESS branch nor the error-but-consistent branch and falls
through to the mismatch branch: an external requester gets an audit_error
reply, and an organic audit is retried or marked audit_error after the
budget. -/
theorem all_error_falls_to_mismatch (exchanges : List String)
    (st : ServerState) (msg : ConsistencyCheckReply) (now : Nat)
    (rs : RequestState)
    (hreq : alookup msg.request_id st.requests = some rs)
    (hdup : alookup msg.node_name rs.replies = none)
    (hfull : ¬ (completedRequest msg rs).replies.length < exchanges.length)
    (hded : ((completedRequest msg rs).replies.map Prod.snd).dedup =
      [errorHash]) :
    (∀ hdr exch, rs.reply_routing_header = some hdr →
      rs.reply_exchange = some exch →
      handle_database_consistency_check_reply exchanges st msg now =
        ({ st with requests := dictPop msg.request_id st.requests },
         [DbAction.audit_error rs.row_id now,
          DbAction.audit_error rs.row_id now],
         [OutMessage.auditReply exch (hdr ++ "." ++ auditReplyRoutingTag)
           { request_id := msg.request_id,
             result := AuditReplyKind.audit_error,
             error_message := some ("avatar " ++ toString rs.avatar_id ++
               " hash mismatch") }])) ∧
    (rs.reply_routing_header = none → rs.retry_count ≥ maxRetryCount →
      handle_database_consistency_check_reply exchanges st msg now =
        ({ st with requests := dictPop msg.request_id st.requests },
         [DbAction.audit_error rs.row_id now], [])) ∧
    (rs.reply_routing_header = none → rs.retry_count < maxRetryCount →
      handle_database_consistency_check_reply exchanges st msg now =
        ({ st with
            requests := dictPop msg.request_id st.requests,
            retryList := st.retryList ++ [retryEntryOf rs now] },
         [DbAction.wait_for_retry rs.row_id], [])) := by
  have hn1 : ¬ ((((completedRequest msg rs).replies.map
      Prod.snd).dedup).length = 1 ∧
      (((completedRequest msg rs).replies.map Prod.snd).dedup).getD 0 ""
        ≠ errorHash) := by
    rintro ⟨-, hgd⟩
    rw [hded] at hgd
    simp at hgd
  have hn2 : ¬ ((((completedRequest msg rs).replies.map
      Prod.snd).dedup).length = 2 ∧
      errorHash ∈ ((completedRequest msg rs).replies.map Prod.snd).dedup)
      := by
    rintro ⟨h2, -⟩
    rw [hded] at h2
    simp at h2
  have hc := handler_complete_eq exchanges st msg now rs hreq hdup hfull
  have hcm := comparator_mismatch
    ({ st with requests := dictPop msg.request_id st.requests })
    msg.request_id (completedRequest msg rs)
    (replyExchangeOf rs) (replyRoutingKeyOf rs) now hn1 hn2
  refine ⟨fun hdr exch hh he => ?_, fun hnone hge => ?_,
    fun hnone hlt => ?_⟩
  · rw [hc, hcm]
    simp [replyExchangeOf, replyRoutingKeyOf, hh, he, completedRequest]
  · rw [hc, hcm]
    have hge2 : (completedRequest msg rs).retry_count ≥ maxRetryCount := hge
    simp [replyExchangeOf, replyRoutingKeyOf, hnone, if_pos hge2,
      completedRequest]
    exact hge
  · rw [hc, hcm]
    have hlt2 : ¬ (completedRequest msg rs).retry_count ≥ maxRetryCount :=
      Nat.not_le.mpr hlt
    simp [replyExchangeOf, replyRoutingKeyOf, hnone, if_neg hlt2,
      completedRequest, retryEntryOf]
    exact hlt

/-- Witness for C10: both nodes error on an externally triggered audit:
one audit_error reply. -/
theorem all_error_falls_to_mismatch_witness :
    alookup "r1" c10State.requests = some c10Request ∧
    handle_database_consistency_check_reply ["ex1", "ex2"] c10State
      c10Msg 100 =
      ({ c10State with requests := [] },
       [DbAction.audit_error 11 100, DbAction.audit_error 11 100],
       [OutMessage.auditReply "cx" ("hdr" ++ "." ++ auditReplyRoutingTag)
         { request_id := "r1",
           result := AuditReplyKind.audit_error,
           error_message := some "avatar 7 hash mismatch" }]) := by
  refine ⟨by decide, ?_⟩
  have h := (all_error_falls_to_mismatch ["ex1", "ex2"] c10State c10Msg
    100 c10Request (by decide) (by decide) (by decide) (by decide)).1
    "hdr" "cx" rfl rfl
  rw [h]
  decide

/-- A concrete externally triggered audit that already heard from n1. -/
def c7Request : RequestState :=
  { timestamp := 0, timeout := 300, avatar_id := 7, retry_count := 2,
    replies := [("n1", "abc")], row_id := 11,
    reply_exchange := some "cx", reply_routing_header := some "hdr" }

def c7State : ServerState :=
  { requests := [("r1", c7Request)], retryList := [], avatarIds := [],
    nextPollInterval := 0, nextAvatarPollInterval := 0 }

def c7Msg : ConsistencyCheckReply :=
  { request_id := "r1", node_name := "n1", error := false, hash := "qqq" }

/-- C7: a second reply from a node that already has an entry changes
nothing at all in the state (the recorded value, the other nodes, the
retry list); the only effect is a single other_error reply when the audit
was externally triggered, and nothing when organic. -/
theorem duplicate_reply_frame (exchanges : List String) (st : ServerState)
    (msg : ConsistencyCheckReply) (now : Nat) (rs : RequestState)
    (v : String)
    (hreq : alookup msg.request_id st.requests = some rs)
    (hdup : alookup msg.node_name rs.replies = some v) :
    (rs.reply_routing_header = none →
      handle_database_consistency_check_reply exchanges st msg now =
        (st, [], [])) ∧
    (∀ hdr exch, rs.reply_routing_header = some hdr →
      rs.reply_exchange = some exch →
      handle_database_consistency_check_reply exchanges st msg now =
        (st, [],
         [OutMessage.auditReply exch (hdr ++ "." ++ auditReplyRoutingTag)
           { request_id := msg.request_id,
             result := AuditReplyKind.other_error,
             error_message := some ("duplicate reply from " ++
               msg.node_name ++ " " ++ toString rs.avatar_id ++ " " ++
               msg.request_id) }])) := by
  refine ⟨fun hnone => ?_, fun hdr exch hh he => ?_⟩
  · simp [handle_database_consistency_check_reply, hreq, hdup, hnone]
  · simp [handle_database_consistency_check_reply, hreq, hdup, hh, he]

/-- Witness for C7: n1 replies a second time with a different hash on an
externally triggered audit: state untouched, one other_error reply. -/
theorem duplicate_reply_frame_witness :
    alookup "n1" c7Request.replies = some "abc" ∧
    handle_database_consistency_check_reply ["ex1", "ex2"] c7State c7Msg
      100 =
      (c7State, [],
       [OutMessage.auditReply "cx" ("hdr" ++ "." ++ auditReplyRoutingTag)
         { request_id := "r1",
           result := AuditReplyKind.other_error,
           error_message := some "duplicate reply from n1 7 r1" }]) := by
  refine ⟨by decide, ?_⟩
  have h := (duplicate_reply_frame ["ex1", "ex2"] c7State c7Msg 100
    c7Request "abc" (by decide) (by decide)).2 "hdr" "cx" rfl rfl
  rw [h]
  decide

def c6Msg : AuditRequestMsg :=
  { request_id := "r1", avatar_id := 7, reply_exchange := "cx",
    reply_routing_header := "hdr" }

def c6Base : ServerState :=
  { requests := [], retryList := [], avatarIds := [],
    nextPollInterval := 1000000, nextAvatarPollInterval := 1000000 }

def c6Oracles : CheckTimeOracles :=
  { freshIds := fun _ => "f", ineligible := [], pick := 0,
    request_id := "rx", new_row_id := 99 }

/-- The request the external audit request c6Msg installs at time 0. -/
def c6Request : RequestState :=
  { timestamp := 0, timeout := 300, avatar_id := 7, retry_count := 2,
    replies := [], row_id := 11, reply_exchange := some "cx",
    reply_routing_header := some "hdr" }

def c6Started : ServerState :=
  { requests := [("r1", c6Request)], retryList := [], avatarIds := [],
    nextPollInterval := 1000000, nextAvatarPollInterval := 1000000 }

/-- An external audit with one reply in, one to go. -/
def c6FullRequest : RequestState :=
  { timestamp := 0, timeout := 300, avatar_id := 7, retry_count := 2,
    replies := [("n1", "abc")], row_id := 11,
    reply_exchange := some "cx", reply_routing_header := some "hdr" }

def c6FullState : ServerState :=
  { requests := [("r1", c6FullRequest)], retryList := [], avatarIds := [],
    nextPollInterval := 1000000, nextAvatarPollInterval := 1000000 }

def c6Msg2 : ConsistencyCheckReply :=
  { request_id := "r1", node_name := "n2", error := false, hash := "abc" }

/-- C6 counterexample: an externally triggered audit that ends by timeout
sends no reply at all to the requester (the tick returns no outbound
message), contradicting "exactly one terminal audit-reply message
whichever way the audit ends". -/
theorem external_timeout_no_reply_counterexample :
    (handle_anti_entropy_audit_request ["ex1"] c6Base c6Msg 0 11).1 =
      c6Started ∧
    check_time ["ex1"] c6Started 301 c6Oracles =
      Except.ok (c6Base, [DbAction.too_many_retries 11], []) := by
  exact ⟨rfl, rfl⟩

/-- C6 (amended): every externally triggered audit is created with its
retry count preset to the maximum; a timeout of such a request marks
too_many_retries, schedules no retry and emits nothing; and when the
audit instead completes through the comparator, the retry list is
untouched and the requester receives exactly one audit-reply message. -/
theorem external_audit_single_reply_amended :
    (∀ (exchanges : List String) (st : ServerState) (msg : AuditRequestMsg)
      (now new_row_id : Nat),
      (alookup msg.request_id (handle_anti_entropy_audit_request exchanges
        st msg now new_row_id).1.requests).map RequestState.retry_count =
        some maxRetryCount) ∧
    (∀ (st : ServerState) (request_id : String) (now : Nat)
      (rs : RequestState), alookup request_id st.requests = some rs →
      rs.retry_count ≥ maxRetryCount →
      timeout_request request_id st now =
        ({ st with requests := dictPop request_id st.requests },
         [DbAction.too_many_retries rs.row_id])) ∧
    (∀ (exchanges : List String) (st : ServerState)
      (msg : ConsistencyCheckReply) (now : Nat) (rs : RequestState)
      (hdr exch : String),
      alookup msg.request_id st.requests = some rs →
      alookup msg.node_name rs.replies = none →
      ¬ (completedRequest msg rs).replies.length < exchanges.length →
      rs.reply_routing_header = some hdr →
      rs.reply_exchange = some exch →
      (handle_database_consistency_check_reply exchanges st msg
        now).1.retryList = st.retryList ∧
      (handle_database_consistency_check_reply exchanges st msg
        now).2.2.length = 1) := by
  refine ⟨fun exchanges st msg now new_row_id => ?_,
    fun st request_id now rs hreq hge => ?_,
    fun exchanges st msg now rs hdr exch hreq hdup hfull hh he => ?_⟩
  · simp [handle_anti_entropy_audit_request, alookup_dictSet]
  · simp only [timeout_request, hreq]
    rw [if_pos hge]
  · rw [handler_complete_eq exchanges st msg now rs hreq hdup hfull]
    have hre : replyExchangeOf rs = some exch := by
      simp [replyExchangeOf, hh, he]
    have hrk : replyRoutingKeyOf rs =
        some (hdr ++ "." ++ auditReplyRoutingTag) := by
      simp [replyRoutingKeyOf, hh]
    simp only [comparator, hre, hrk]
    split_ifs <;> simp

/-- Witness for C6 at concrete runs: creation presets the retry count, a
timeout emits nothing, a comparator completion replies exactly once. -/
theorem external_audit_single_reply_amended_witness :
    (alookup "r1" (handle_anti_entropy_audit_request ["ex1"] c6Base c6Msg
      0 11).1.requests).map RequestState.retry_count = some maxRetryCount ∧
    timeout_request "r1" c6Started 301 =
      ({ c6Started with requests := [] },
       [DbAction.too_many_retries 11]) ∧
    (handle_database_consistency_check_reply ["ex1", "ex2"] c6FullState
      c6Msg2 100).1.retryList = c6FullState.retryList ∧
    (handle_database_consistency_check_reply ["ex1", "ex2"] c6FullState
      c6Msg2 100).2.2.length = 1 := by
  refine ⟨external_audit_single_reply_amended.1 ["ex1"] c6Base c6Msg 0 11,
    ?_, ?_⟩
  · have h := external_audit_single_reply_amended.2.1 c6Started "r1" 301
      c6Request (by decide) (by decide)
    rw [h]
    decide
  · exact external_audit_single_reply_amended.2.2 ["ex1", "ex2"]
      c6FullState c6Msg2 100 c6FullRequest "hdr" "cx" (by decide)
      (by decide) (by decide) rfl rfl

def c8Request : RequestState :=
  { timestamp := 0, timeout := 1000000000, avatar_id := 7,
    retry_count := 0, replies := [("n1", "abc")], row_id := 11,
    reply_exchange := none, reply_routing_header := none }

def c8State : ServerState :=
  { requests := [("r1", c8Request)], retryList := [], avatarIds := [5],
    nextPollInterval := 0, nextAvatarPollInterval := 1000000000 }

def c8Oracles : CheckTimeOracles :=
  { freshIds := fun _ => "f", ineligible := [], pick := 0,
    request_id := "r2", new_row_id := 5 }

def c8NewRequest : RequestState :=
  { timestamp := 1000, timeout := 1300, avatar_id := 5, retry_count := 0,
    replies := [], row_id := 5, reply_exchange := none,
    reply_routing_header := none }

def c8ResultState : ServerState :=
  { requests := [("r1", c8Request), ("r2", c8NewRequest)],
    retryList := [], avatarIds := [5], nextPollInterval := 2800,
    nextAvatarPollInterval := 1000000000 }

def c8Msg : AuditRequestMsg :=
  { request_id := "r8", avatar_id := 9, reply_exchange := "cx",
    reply_routing_header := "hdr" }

/-- C8 counterexample: at the audit-selection poll the scheduler starts a
new organic audit although an AuditRequest is outstanding: that path
never scans the table. -/
theorem scheduler_poll_starts_concurrent_audit :
    c8State.requests ≠ [] ∧
    check_time ["ex1", "ex2"] c8State 1000 c8Oracles =
      Except.ok (c8ResultState, [DbAction.start_audit 5 1000],
        [OutMessage.consistencyCheck "ex1" "r2" 5 1000,
         OutMessage.consistencyCheck "ex2" "r2" 5 1000]) ∧
    c8ResultState.requests.length = 2 := by
  refine ⟨by decide, by rfl, by decide⟩

/-- C8 (amended): only the avatar-list-reply handler guards organic audit
selection by scanning the table: with any AuditRequest outstanding it
refreshes the avatar cache and starts nothing; externally triggered
audits are installed and broadcast unconditionally. -/
theorem organic_exclusivity_amended (exchanges : List String)
    (st : ServerState) (avatarIds ineligible : List Nat) (pick : Nat)
    (request_id : String) (now new_row_id : Nat) (msg : AuditRequestMsg)
    (hlive : st.requests ≠ []) :
    handle_database_avatar_list_reply exchanges st avatarIds ineligible
      pick request_id now new_row_id =
      ({ st with avatarIds := avatarIds }, [], []) ∧
    (handle_anti_entropy_audit_request exchanges st msg now
      new_row_id).2.2 =
      exchanges.map (fun ex =>
        OutMessage.consistencyCheck ex msg.request_id msg.avatar_id now)
      := by
  constructor
  · have hne : st.requests.isEmpty = false := by
      rcases h : st.requests with _ | ⟨p, t⟩
      · exact absurd h hlive
      · simp [h]
    simp [handle_database_avatar_list_reply, hne]
  · rfl

/-- Witness for C8: the avatar-list handler with a live request refreshes
the cache and starts no audit. -/
theorem organic_exclusivity_amended_witness :
    c8State.requests ≠ [] ∧
    handle_database_avatar_list_reply ["ex1", "ex2"] c8State [5] [] 0
      "r9" 1000 42 = ({ c8State with avatarIds := [5] }, [], []) :=
  ⟨by decide,
   (organic_exclusivity_amended ["ex1", "ex2"] c8State [5] [] 0 "r9" 1000
     42 c8Msg (by decide)).1⟩

lemma alookup_isSome_of_mem_keys {α : Type} (k : String) :
    ∀ d : List (String × α), k ∈ d.map Prod.fst → (alookup k d).isSome
  | [], h => by simp at h
  | (k2, v2) :: rest, h => by
    by_cases hp : k2 = k
    · simp [alookup, hp]
    · have h2 : k ∈ rest.map Prod.fst := by
        rcases List.mem_cons.mp h with h1 | h1
        · exact absurd h1.symm hp
        · exact h1
      simpa [alookup, hp] using alookup_isSome_of_mem_keys k rest h2

/-- Whatever the comparator decides, the request table it returns is the
one it was handed (the request was already popped). -/
lemma comparator_requests (st : ServerState) (request_id : String)
    (rs : RequestState) (re rk : Option String) (now : Nat) :
    (comparator st request_id rs re rk now).1.requests = st.requests := by
  rcases re with _ | ex <;> rcases rk with _ | rk <;>
    simp only [comparator] <;> split_ifs <;> simp

/-- Modelled from the spec: the fixed Node Set of peer node names.  The
source file reads no node-name configuration at all (only the exchange
list), which is what the counterexample exhibits. -/
def c9NodeSet : List String := ["node1", "node2"]

def c9Request : RequestState :=
  { timestamp := 0, timeout := 300, avatar_id := 7, retry_count := 0,
    replies := [], row_id := 11, reply_exchange := none,
    reply_routing_header := none }

def c9State : ServerState :=
  { requests := [("r1", c9Request)], retryList := [], avatarIds := [],
    nextPollInterval := 0, nextAvatarPollInterval := 0 }

def c9Msg : ConsistencyCheckReply :=
  { request_id := "r1", node_name := "rogue", error := false, hash := "h" }

def c9After : RequestState :=
  { timestamp := 0, timeout := 300, avatar_id := 7, retry_count := 0,
    replies := [("rogue", "h")], row_id := 11, reply_exchange := none,
    reply_routing_header := none }

/-- C9 counterexample: the handler records a reply from a node name
outside the Node Set (with two exchanges the key rogue enters replies),
and with a single exchange that same foreign reply triggers the
comparator, although no node of the Node Set has replied. -/
theorem replies_subset_counterexample :
    alookup "r1" (handle_database_consistency_check_reply ["ex1", "ex2"]
      c9State c9Msg 100).1.requests = some c9After ∧
    "rogue" ∈ c9After.replies.map Prod.fst ∧
    ¬ "rogue" ∈ c9NodeSet ∧
    alookup "r1" (handle_database_consistency_check_reply ["ex1"]
      c9State c9Msg 100).1.requests = none := by
  refine ⟨by rfl, by decide, by decide, by rfl⟩

def c9AmRequest : RequestState :=
  { timestamp := 0, timeout := 300, avatar_id := 7, retry_count := 0,
    replies := [("n1", "abc")], row_id := 11, reply_exchange := none,
    reply_routing_header := none }

def c9AmState : ServerState :=
  { requests := [("r1", c9AmRequest)], retryList := [], avatarIds := [],
    nextPollInterval := 0, nextAvatarPollInterval := 0 }

def c9AmMsg : ConsistencyCheckReply :=
  { request_id := "r1", node_name := "n2", error := false, hash := "abc" }

/-- C9 (amended): the handler never checks reply node names against a
node-name set; the invariant holds only under the assumption that every
reply originates from the Node Set.  Under that assumption a fresh reply
keeps the keys of replies nodup and inside the Node Set, the request
waits exactly while fewer replies than exchanges are recorded, and when
the count reaches the exchange count the request is popped with every
node of the Node Set present in replies. -/
theorem replies_invariant_amended (exchanges nodeNames : List String)
    (st : ServerState) (msg : ConsistencyCheckReply) (now : Nat)
    (rs : RequestState)
    (hreq : alookup msg.request_id st.requests = some rs)
    (hfresh : alookup msg.node_name rs.replies = none)
    (hkeys : (rs.replies.map Prod.fst).Nodup)
    (hsub : ∀ p ∈ rs.replies, p.1 ∈ nodeNames)
    (hnode : msg.node_name ∈ nodeNames)
    (hnn : nodeNames.Nodup)
    (hlen : nodeNames.length = exchanges.length) :
    ((completedRequest msg rs).replies.map Prod.fst).Nodup ∧
    (∀ p ∈ (completedRequest msg rs).replies, p.1 ∈ nodeNames) ∧
    (rs.replies.length + 1 < exchanges.length →
      alookup msg.request_id (handle_database_consistency_check_reply
        exchanges st msg now).1.requests = some (completedRequest msg rs))
      ∧
    (¬ rs.replies.length + 1 < exchanges.length →
      alookup msg.request_id (handle_database_consistency_check_reply
        exchanges st msg now).1.requests = none ∧
      ∀ n ∈ nodeNames, n ∈ (completedRequest msg rs).replies.map
        Prod.fst) := by
  have hnew : (completedRequest msg rs).replies =
      rs.replies ++ [(msg.node_name, hashValue msg)] := by
    simp [completedRequest,
      dictSet_fresh msg.node_name (hashValue msg) rs.replies hfresh]
  have hlen1 : (completedRequest msg rs).replies.length =
      rs.replies.length + 1 := by
    rw [hnew]; simp
  have hkeys2 : ((completedRequest msg rs).replies.map Prod.fst).Nodup
      := by
    rw [hnew, List.map_append]
    refine List.nodup_append.mpr ⟨hkeys, by simp, ?_⟩
    intro a ha hb
    simp only [List.map_cons, List.map_nil, List.mem_singleton] at hb
    subst hb
    have hs := alookup_isSome_of_mem_keys msg.node_name rs.replies ha
    rw [hfresh] at hs
    simp at hs
  have hsub2 : ∀ p ∈ (completedRequest msg rs).replies, p.1 ∈ nodeNames
      := by
    rw [hnew]
    intro p hp
    rcases List.mem_append.mp hp with hp | hp
    · exact hsub p hp
    · simp only [List.mem_singleton] at hp
      subst hp
      exact hnode
  refine ⟨hkeys2, hsub2, fun hlt => ?_, fun hge => ?_⟩
  · have hlt2 : (completedRequest msg rs).replies.length <
        exchanges.length := by rw [hlen1]; exact hlt
    rw [handler_incomplete_eq exchanges st msg now rs hreq hfresh hlt2]
    exact alookup_dictSet msg.request_id (completedRequest msg rs)
      st.requests
  · have hge2 : ¬ (completedRequest msg rs).replies.length <
        exchanges.length := by rw [hlen1]; exact hge
    rw [handler_complete_eq exchanges st msg now rs hreq hfresh hge2]
    constructor
    · rw [comparator_requests]
      exact alookup_dictPop msg.request_id st.requests
    · have hkeylen : ((completedRequest msg rs).replies.map
          Prod.fst).length = rs.replies.length + 1 := by
        rw [List.length_map]; exact hlen1
      have hcardK : ((completedRequest msg rs).replies.map
          Prod.fst).toFinset.card = rs.replies.length + 1 := by
        rw [List.toFinset_card_of_nodup hkeys2, hkeylen]
      have hsubF : ((completedRequest msg rs).replies.map
          Prod.fst).toFinset ⊆ nodeNames.toFinset := by
        intro x hx
        rw [List.mem_toFinset] at hx ⊢
        obtain ⟨p, hp, rfl⟩ := List.mem_map.mp hx
        exact hsub2 p hp
      have hcardN : nodeNames.toFinset.card = nodeNames.length :=
        List.toFinset_card_of_nodup hnn
      have hcardle : nodeNames.toFinset.card ≤
          ((completedRequest msg rs).replies.map Prod.fst).toFinset.card
          := by
        rw [hcardN, hcardK, hlen]
        have := Finset.card_le_card hsubF
        rw [hcardN, hcardK] at this
        omega
      have heq := Finset.eq_of_subset_of_card_le hsubF hcardle
      intro n hn
      have : n ∈ nodeNames.toFinset := List.mem_toFinset.mpr hn
      rw [← heq] at this
      exact List.mem_toFinset.mp this

/-- Witness for C9 amended: nodes n1 and n2, two exchanges; the reply
from n2 completes the audit with both nodes present. -/
theorem replies_invariant_amended_witness :
    alookup "r1" (handle_database_consistency_check_reply ["ex1", "ex2"]
      c9AmState c9AmMsg 100).1.requests = none ∧
    ∀ n ∈ ["n1", "n2"],
      n ∈ (completedRequest c9AmMsg c9AmRequest).replies.map Prod.fst :=
  (replies_invariant_amended ["ex1", "ex2"] ["n1", "n2"] c9AmState c9AmMsg
    100 c9AmRequest (by decide) (by decide) (by decide) (by decide)
    (by decide) (by decide) (by decide)).2.2.2 (by decide)

end AntiEntropy
